import Mathlib

/-!
Shallow embedding of the persistence layer in `src/utils/database.py`
(PostgreSQL-backed store of a RAG chatbot).

The database state is a record of six tables (lists of rows) together with
the SERIAL counters of each table and nothing else.  Each Python function
becomes a Lean function on this state.  A statement-level fault oracle
`fault : Option Nat` models an underlying database error (connectivity
failure) raised while executing the i-th SQL statement of the operation:
`fault = some i` makes statement `i` raise, `none` means no injected fault.
Read-only operations take a single `fault : Bool` because they run one query.
Intrinsic integrity violations (UNIQUE, NOT NULL, FOREIGN KEY) are checked by
the embedding exactly where PostgreSQL would raise them.  A raised exception
reaching the caller is an `Except.error`; `conn.rollback()` in the Python
code corresponds to returning the original, unmodified state.
-/

namespace RagDB

/-- Errors surfaced by the backing store: integrity violations
(UNIQUE / NOT NULL / FOREIGN KEY), and any other underlying error
(connectivity etc.), which the fault oracle injects. -/
inductive DbError where
  | integrityError : DbError
  | connError : DbError
deriving DecidableEq

/-- Row of the `conversations` table. -/
structure Conversation where
  id : Nat
  title : String
  created_at : Nat
  last_updated : Nat
deriving DecidableEq

/-- Row of the `messages` table. -/
structure Message where
  id : Nat
  conversation_id : Nat
  role : String
  content : String
  created_at : Nat
deriving DecidableEq

/-- Row of the `sources` table. -/
structure Source where
  id : Nat
  message_id : Nat
  source_document : String
  page_number : Int
  score : ℚ
  kb_name : String
deriving DecidableEq

/-- Row of the `settings` table. -/
structure SettingRow where
  id : Nat
  key : String
  value : String
deriving DecidableEq

/-- Row of the `knowledge_bases` table. -/
structure KnowledgeBase where
  id : Nat
  name : String
  description : String
  created_at : Nat
  document_count : Nat
  embedding_model : String
  chunking_strategy : String
deriving DecidableEq

/-- Row of the `documents` table. -/
structure Document where
  id : Nat
  knowledge_base_id : Nat
  filename : String
  document_type : String
  page_count : Int
  chunk_count : Int
  created_at : Nat
deriving DecidableEq

/-- The whole database: the six tables created by `init_database`, plus one
SERIAL counter per table (PostgreSQL `SERIAL PRIMARY KEY`, starting at 1). -/
structure DB where
  conversations : List Conversation
  messages : List Message
  sources : List Source
  settings : List SettingRow
  knowledge_bases : List KnowledgeBase
  documents : List Document
  nextConvId : Nat
  nextMsgId : Nat
  nextSrcId : Nat
  nextSettingId : Nat
  nextKbId : Nat
  nextDocId : Nat
deriving DecidableEq

/-- The state right after `init_database` on a fresh database: empty tables,
every SERIAL sequence at 1. -/
def emptyDB : DB :=
  ⟨[], [], [], [], [], [], 1, 1, 1, 1, 1, 1⟩

/-- Ordering used by `get_conversations`: ORDER BY last_updated DESC. -/
def convDesc (a b : Conversation) : Prop := b.last_updated ≤ a.last_updated

instance : DecidableRel convDesc :=
  fun a b => inferInstanceAs (Decidable (b.last_updated ≤ a.last_updated))

/-- Ordering used by `get_messages`: ORDER BY created_at (ascending). -/
def msgAsc (a b : Message) : Prop := a.created_at ≤ b.created_at

instance : DecidableRel msgAsc :=
  fun a b => inferInstanceAs (Decidable (a.created_at ≤ b.created_at))

/-- Function `get_conversations`: SELECT id, title, created_at FROM conversations
ORDER BY last_updated DESC.  On any error, logs and returns `[]`. -/
def get_conversations (db : DB) (fault : Bool) : List (Nat × String × Nat) :=
  if fault then []
  else (List.insertionSort convDesc db.conversations).map
    (fun c => (c.id, c.title, c.created_at))

/-- Function `create_conversation`: INSERT INTO conversations (title) RETURNING id,
then commit.  `now` is CURRENT_TIMESTAMP.  On error: rollback and re-raise. -/
def create_conversation (db : DB) (title : String) (now : Nat)
    (fault : Option Nat) : DB × Except DbError Nat :=
  if fault = some 0 then (db, .error .connError)
  else
    let cid := db.nextConvId
    let db1 : DB := { db with
      conversations := db.conversations ++ [⟨cid, title, now, now⟩],
      nextConvId := cid + 1 }
    if fault = some 1 then (db, .error .connError)
    else (db1, .ok cid)

/-- Function `get_messages`: SELECT id, role, content, created_at FROM messages
WHERE conversation_id = cid ORDER BY created_at.  On error returns `[]`. -/
def get_messages (db : DB) (cid : Nat) (fault : Bool) :
    List (Nat × String × String × Nat) :=
  if fault then []
  else (List.insertionSort msgAsc
      (db.messages.filter (fun m => m.conversation_id == cid))).map
    (fun m => (m.id, m.role, m.content, m.created_at))

/-- Function `add_message`: statement 0 inserts the message (FOREIGN KEY
`conversation_id REFERENCES conversations(id)` raises an integrity error if
the parent is absent), statement 1 updates the parent conversation's
last_updated to CURRENT_TIMESTAMP, then commit.  On any error the whole
transaction rolls back and the error propagates. -/
def add_message (db : DB) (cid : Nat) (role content : String) (now : Nat)
    (fault : Option Nat) : DB × Except DbError Nat :=
  if fault = some 0 then (db, .error .connError)
  else if !(db.conversations.any (fun c => c.id == cid)) then
    (db, .error .integrityError)
  else
    let mid := db.nextMsgId
    let db1 : DB := { db with
      messages := db.messages ++ [⟨mid, cid, role, content, now⟩],
      nextMsgId := mid + 1 }
    if fault = some 1 then (db, .error .connError)
    else
      let db2 : DB := { db1 with
        conversations := db1.conversations.map
          (fun c => if c.id == cid then { c with last_updated := now } else c) }
      if fault = some 2 then (db, .error .connError)
      else (db2, .ok mid)

/-- Value found under the key of a Python dict entry that feeds the `score`
column: either something `float()` converts (modelled by the rational it
converts to) or something on which `float()` raises ValueError / TypeError. -/
inductive ScoreVal where
  | num : ℚ → ScoreVal
  | bad : ScoreVal
deriving DecidableEq

/-- One element of the `sources` argument of `add_sources`: a Python dict,
restricted to the four keys the function reads; `none` in a field means the
key is absent from the dict (`dict.get` returns the default). -/
structure PySourceEntry where
  source : Option String
  page : Option Int
  score : Option ScoreVal
  kb_name : Option String
deriving DecidableEq

/-- The score actually stored: `float(source.get('score', 0.5))` guarded by
`except (ValueError, TypeError): score = 0.5`. -/
def coerceScore : Option ScoreVal → ℚ
  | none => 1/2
  | some (.num q) => q
  | some .bad => 1/2

/-- Effect on the state of one loop iteration of `add_sources`:
INSERT INTO sources with the per-key defaults of the Python code. -/
def insertSourceRow (db : DB) (mid : Nat) (e : PySourceEntry) : DB :=
  { db with
    sources := db.sources ++
      [⟨db.nextSrcId, mid, e.source.getD "", e.page.getD 0,
        coerceScore e.score, e.kb_name.getD "Unknown KB"⟩],
    nextSrcId := db.nextSrcId + 1 }

/-- The loop of `add_sources`, inserting entry after entry on the working
(uncommitted) state; statement `i` is the INSERT of entry `i`, the statement
after the last entry is the COMMIT.  The FOREIGN KEY
`message_id REFERENCES messages(id)` raises when the message is absent. -/
def addSourcesLoop (db : DB) (mid : Nat) (entries : List PySourceEntry)
    (i : Nat) (fault : Option Nat) : Except DbError DB :=
  match entries with
  | [] => if fault = some i then .error .connError else .ok db
  | e :: rest =>
    if fault = some i then .error .connError
    else if !(db.messages.any (fun m => m.id == mid)) then
      .error .integrityError
    else addSourcesLoop (insertSourceRow db mid e) mid rest (i + 1) fault

/-- Function `add_sources`: `if not sources: return` before any connection is taken
(the Bool in the result records whether a connection was opened); otherwise
all inserts run in one transaction, any error rolls back and re-raises. -/
def add_sources (db : DB) (mid : Nat) (entries : List PySourceEntry)
    (fault : Option Nat) : DB × Bool × Except DbError Unit :=
  if entries.isEmpty then (db, false, .ok ())
  else
    match addSourcesLoop db mid entries 0 fault with
    | .ok db1 => (db1, true, .ok ())
    | .error e => (db, true, .error e)

/-- Record returned by `get_sources` for each row:
`{"source": src, "page": page, "score": score, "kb_name": kb_name}`. -/
structure SourceRec where
  source : String
  page : Int
  score : ℚ
  kb_name : String
deriving DecidableEq

/-- Ordering used by `get_sources`: ORDER BY score DESC. -/
def srcDesc (a b : SourceRec) : Prop := b.score ≤ a.score

instance : DecidableRel srcDesc :=
  fun a b => inferInstanceAs (Decidable (b.score ≤ a.score))

instance : IsTotal SourceRec srcDesc :=
  ⟨fun a b => le_total b.score a.score⟩

instance : IsTrans SourceRec srcDesc :=
  ⟨fun _ _ _ hab hbc => le_trans hbc hab⟩

/-- Function `get_sources`: SELECT source_document, page_number, score, kb_name FROM
sources WHERE message_id = mid ORDER BY score DESC, mapped into dicts.
On error returns `[]`. -/
def get_sources (db : DB) (mid : Nat) (fault : Bool) : List SourceRec :=
  if fault then []
  else List.insertionSort srcDesc
    ((db.sources.filter (fun s => s.message_id == mid)).map
      (fun s => ⟨s.source_document, s.page_number, s.score, s.kb_name⟩))

/-- Function `update_conversation_title`: a single unconditional UPDATE, then commit;
updating a missing id matches no row and is a no-op, not an error. -/
def update_conversation_title (db : DB) (cid : Nat) (new_title : String)
    (fault : Option Nat) : DB × Except DbError Unit :=
  if fault = some 0 then (db, .error .connError)
  else
    let db1 : DB := { db with
      conversations := db.conversations.map
        (fun c => if c.id == cid then { c with title := new_title } else c) }
    if fault = some 1 then (db, .error .connError)
    else (db1, .ok ())

/-- Function `delete_conversation`: DELETE FROM conversations WHERE id = cid; the
schema's ON DELETE CASCADE (messages.conversation_id → conversations.id and
sources.message_id → messages.id, see `init_database`) removes the
conversation's messages and those messages' sources in the same transaction. -/
def delete_conversation (db : DB) (cid : Nat) (fault : Option Nat) :
    DB × Except DbError Unit :=
  if fault = some 0 then (db, .error .connError)
  else
    let deadMsgIds : List Nat :=
      (db.messages.filter (fun m => m.conversation_id == cid)).map
        (fun m => m.id)
    let db1 : DB := { db with
      conversations := db.conversations.filter (fun c => !(c.id == cid)),
      messages := db.messages.filter (fun m => !(m.conversation_id == cid)),
      sources := db.sources.filter
        (fun s => !(deadMsgIds.contains s.message_id)) }
    if fault = some 1 then (db, .error .connError)
    else (db1, .ok ())

/-- Function `register_knowledge_base`: statement 0 is the INSERT ... RETURNING id.
A `psycopg2.IntegrityError` (UNIQUE(name) violated, or NOT NULL violated
when `name` is Python `None` → SQL NULL) is caught: rollback, then
SELECT id FROM knowledge_bases WHERE name = %s, and
`return result[0] if result else None` — a `name = NULL` comparison matches
no row, so that path returns Python `None`, modelled as `.ok none`.
Statement 1 of the success path is the COMMIT.  Other errors rollback and
re-raise. -/
def register_knowledge_base (db : DB) (name : Option String)
    (embedding_model chunking_strategy description : String) (now : Nat)
    (fault : Option Nat) : DB × Except DbError (Option Nat) :=
  if fault = some 0 then (db, .error .connError)
  else
    match name with
    | none => (db, .ok none)
    | some n =>
      if db.knowledge_bases.any (fun kb => kb.name == n) then
        match db.knowledge_bases.find? (fun kb => kb.name == n) with
        | some kb => (db, .ok (some kb.id))
        | none => (db, .ok none)
      else
        let kid := db.nextKbId
        let db1 : DB := { db with
          knowledge_bases := db.knowledge_bases ++
            [⟨kid, n, description, now, 0, embedding_model,
              chunking_strategy⟩],
          nextKbId := kid + 1 }
        if fault = some 1 then (db, .error .connError)
        else (db1, .ok (some kid))

/-- Ordering used by `get_knowledge_bases`: ORDER BY created_at DESC. -/
def kbDesc (a b : KnowledgeBase) : Prop := b.created_at ≤ a.created_at

instance : DecidableRel kbDesc :=
  fun a b => inferInstanceAs (Decidable (b.created_at ≤ a.created_at))

/-- Function `get_knowledge_bases`: SELECT all fields FROM knowledge_bases
ORDER BY created_at DESC, as dicts.  On error returns `[]`. -/
def get_knowledge_bases (db : DB) (fault : Bool) : List KnowledgeBase :=
  if fault then []
  else List.insertionSort kbDesc db.knowledge_bases

/-- Function `register_document`: statement 0 inserts the document (FOREIGN KEY
`knowledge_base_id REFERENCES knowledge_bases(id)` raises when the parent is
absent), statement 1 increments the parent's document_count, statement 2 is
the COMMIT.  On any error the transaction rolls back and the error
propagates. -/
def register_document (db : DB) (kbId : Nat) (filename document_type : String)
    (page_count chunk_count : Int) (now : Nat) (fault : Option Nat) :
    DB × Except DbError Nat :=
  if fault = some 0 then (db, .error .connError)
  else if !(db.knowledge_bases.any (fun kb => kb.id == kbId)) then
    (db, .error .integrityError)
  else
    let did := db.nextDocId
    let db1 : DB := { db with
      documents := db.documents ++
        [⟨did, kbId, filename, document_type, page_count, chunk_count, now⟩],
      nextDocId := did + 1 }
    if fault = some 1 then (db, .error .connError)
    else
      let db2 : DB := { db1 with
        knowledge_bases := db1.knowledge_bases.map
          (fun kb => if kb.id == kbId then
            { kb with document_count := kb.document_count + 1 } else kb) }
      if fault = some 2 then (db, .error .connError)
      else (db2, .ok did)

/-- Record returned by `get_documents` (the SELECT omits
knowledge_base_id). -/
structure DocumentRec where
  id : Nat
  filename : String
  document_type : String
  page_count : Int
  chunk_count : Int
  created_at : Nat
deriving DecidableEq

/-- Ordering used by `get_documents`: ORDER BY created_at DESC. -/
def docDesc (a b : DocumentRec) : Prop := b.created_at ≤ a.created_at

instance : DecidableRel docDesc :=
  fun a b => inferInstanceAs (Decidable (b.created_at ≤ a.created_at))

/-- Function `get_documents`: SELECT id, filename, document_type, page_count,
chunk_count, created_at FROM documents WHERE knowledge_base_id = kbId
ORDER BY created_at DESC.  On error returns `[]`. -/
def get_documents (db : DB) (kbId : Nat) (fault : Bool) : List DocumentRec :=
  if fault then []
  else List.insertionSort docDesc
    ((db.documents.filter (fun d => d.knowledge_base_id == kbId)).map
      (fun d => ⟨d.id, d.filename, d.document_type, d.page_count,
        d.chunk_count, d.created_at⟩))

/-- Function `get_setting`: SELECT value FROM settings WHERE key = %s; returns the
value if a row is found, the `default` argument otherwise; on error logs
and returns `default`. -/
def get_setting (db : DB) (key : String) (default : Option String)
    (fault : Bool) : Option String :=
  if fault then default
  else
    match db.settings.find? (fun r => r.key == key) with
    | some r => some r.value
    | none => default

/-- Function `set_setting`: the single atomic statement
INSERT INTO settings (key, value) VALUES (%s, %s)
ON CONFLICT (key) DO UPDATE SET value = EXCLUDED.value, then commit.
On error: rollback and re-raise. -/
def set_setting (db : DB) (key value : String) (fault : Option Nat) :
    DB × Except DbError Unit :=
  if fault = some 0 then (db, .error .connError)
  else
    let db1 : DB :=
      if db.settings.any (fun r => r.key == key) then
        { db with
          settings := db.settings.map
            (fun r =>
              if r.key == key then { r with value := value } else r) }
      else
        { db with
          settings := db.settings ++ [⟨db.nextSettingId, key, value⟩],
          nextSettingId := db.nextSettingId + 1 }
    if fault = some 1 then (db, .error .connError)
    else (db1, .ok ())

/-- Function `get_active_knowledge_base`: reads the setting "active_knowledge_base"
via `get_setting` (its own connection, with its own possible failure
`faultSetting`); `if not active_kb_name: return None` is Python falsiness, so
both an unset setting and the empty string short-circuit to None; otherwise
SELECT ... FROM knowledge_bases WHERE name = %s (`faultKb` models an error in
that query, which is caught and turned into None). -/
def get_active_knowledge_base (db : DB) (faultSetting faultKb : Bool) :
    Option KnowledgeBase :=
  match get_setting db "active_knowledge_base" none faultSetting with
  | none => none
  | some name =>
    if name = "" then none
    else if faultKb then none
    else db.knowledge_bases.find? (fun kb => kb.name == name)

/-- Function `set_active_knowledge_base`: `set_setting("active_knowledge_base",
kb_name)`, unconditionally. -/
def set_active_knowledge_base (db : DB) (kb_name : String)
    (fault : Option Nat) : DB × Except DbError Unit :=
  set_setting db "active_knowledge_base" kb_name fault

/-- True exactly on `Except.ok`, i.e. the operation returned normally
instead of raising. -/
def isOkE {α : Type} : Except DbError α → Bool
  | .ok _ => true
  | .error _ => false

/-- One invocation of a state-changing operation of the store, with its
arguments and its fault oracle. -/
inductive Op where
  | opCreateConversation (title : String) (now : Nat) (fault : Option Nat)
  | opAddMessage (cid : Nat) (role content : String) (now : Nat)
      (fault : Option Nat)
  | opAddSources (mid : Nat) (entries : List PySourceEntry)
      (fault : Option Nat)
  | opUpdateTitle (cid : Nat) (title : String) (fault : Option Nat)
  | opDeleteConversation (cid : Nat) (fault : Option Nat)
  | opRegisterKB (name : Option String) (em cs descr : String) (now : Nat)
      (fault : Option Nat)
  | opRegisterDocument (kbId : Nat) (filename dtype : String)
      (pc cc : Int) (now : Nat) (fault : Option Nat)
  | opSetSetting (key value : String) (fault : Option Nat)
  | opSetActiveKB (name : String) (fault : Option Nat)
deriving DecidableEq

/-- State after executing one operation (the caller's view of the store;
results and raised errors are discarded here). -/
def step (db : DB) : Op → DB
  | .opCreateConversation title now fault =>
    (create_conversation db title now fault).1
  | .opAddMessage cid role content now fault =>
    (add_message db cid role content now fault).1
  | .opAddSources mid entries fault => (add_sources db mid entries fault).1
  | .opUpdateTitle cid title fault =>
    (update_conversation_title db cid title fault).1
  | .opDeleteConversation cid fault => (delete_conversation db cid fault).1
  | .opRegisterKB name em cs descr now fault =>
    (register_knowledge_base db name em cs descr now fault).1
  | .opRegisterDocument kbId fn dt pc cc now fault =>
    (register_document db kbId fn dt pc cc now fault).1
  | .opSetSetting key value fault => (set_setting db key value fault).1
  | .opSetActiveKB name fault => (set_active_knowledge_base db name fault).1

/-- State after executing a sequence of operations in order. -/
def runTrace : DB → List Op → DB
  | db, [] => db
  | db, op :: tl => runTrace (step db op) tl

/-- Whether, in state `db`, the operation `op` is a `register_document` call
against knowledge base `k` that returns successfully. -/
def regDocSuccess (db : DB) (op : Op) (k : Nat) : Bool :=
  match op with
  | .opRegisterDocument kbId fn dt pc cc now fault =>
    kbId == k && isOkE (register_document db kbId fn dt pc cc now fault).2
  | _ => false

/-- Number of successful `register_document` calls against knowledge base `k`
along a trace started in state `db`. -/
def docRegSuccesses : DB → List Op → Nat → Nat
  | _, [], _ => 0
  | db, op :: tl, k =>
    (if regDocSuccess db op k then 1 else 0) + docRegSuccesses (step db op) tl k

/-- The knowledge-base row with id `k` (first match, as a SELECT would
return). -/
def kbFind (db : DB) (k : Nat) : Option KnowledgeBase :=
  db.knowledge_bases.find? (fun kb => kb.id == k)

/-! Concrete states used to instantiate the theorems. -/

/-- A database holding one conversation (id 1). -/
def dbConv : DB := ⟨[⟨1, "New Chat", 0, 0⟩], [], [], [], [], [], 2, 1, 1, 1, 1, 1⟩

/-- A database holding one conversation (id 1) and one message (id 1). -/
def dbMsg : DB :=
  ⟨[⟨1, "New Chat", 0, 0⟩], [⟨1, 1, "assistant", "hello", 0⟩], [], [], [], [],
    2, 2, 1, 1, 1, 1⟩

/-- A database holding one knowledge base (id 1, name "kb1", zero
documents). -/
def dbKb : DB := ⟨[], [], [], [], [⟨1, "kb1", "", 0, 0, "m", "s"⟩], [],
  1, 1, 1, 1, 2, 1⟩

/-- A database where message 1 carries three sources with scores
0.9, 0.3, 0.6 (in insertion order). -/
def dbThreeScores : DB :=
  ⟨[⟨1, "t", 0, 0⟩], [⟨1, 1, "assistant", "x", 0⟩],
    [⟨1, 1, "a", 1, 9/10, "kb"⟩, ⟨2, 1, "b", 2, 3/10, "kb"⟩,
      ⟨3, 1, "c", 3, 6/10, "kb"⟩],
    [], [], [], 2, 2, 4, 1, 1, 1⟩

/-- The rows `add_sources` stores for a list of entries, given the first
fresh SERIAL id `start`: per-key defaults `source → ""`, `page → 0`,
`score → 0.5` (also on failed coercion), `kb_name → "Unknown KB"`. -/
def storedRows (mid : Nat) : Nat → List PySourceEntry → List Source
  | _, [] => []
  | start, e :: tl =>
    ⟨start, mid, e.source.getD "", e.page.getD 0, coerceScore e.score,
      e.kb_name.getD "Unknown KB"⟩ :: storedRows mid (start + 1) tl

/-- When the loop of `add_sources` completes without error it has appended
exactly the defaulted rows, and it has touched no other table. -/
theorem addSourcesLoop_ok (mid : Nat) :
    ∀ (entries : List PySourceEntry) (db db1 : DB) (i : Nat)
      (fault : Option Nat),
      addSourcesLoop db mid entries i fault = .ok db1 →
      db1.sources = db.sources ++ storedRows mid db.nextSrcId entries ∧
      db1.conversations = db.conversations ∧
      db1.messages = db.messages ∧
      db1.settings = db.settings ∧
      db1.knowledge_bases = db.knowledge_bases ∧
      db1.documents = db.documents := by
  intro entries
  induction entries with
  | nil =>
    intro db db1 i fault h
    simp only [addSourcesLoop] at h
    split at h
    · cases h
    · cases h
      simp [storedRows]
  | cons e rest ih =>
    intro db db1 i fault h
    simp only [addSourcesLoop] at h
    split at h
    · cases h
    · split at h
      · cases h
      · obtain ⟨h1, h2, h3, h4, h5, h6⟩ :=
          ih (insertSourceRow db mid e) db1 (i + 1) fault h
        refine ⟨?_, h2, h3, h4, h5, h6⟩
        rw [h1]
        simp [insertSourceRow, storedRows]

/-- C6: read-only operations never raise into the caller: on an underlying
query failure, `get_conversations`, `get_messages`, `get_sources`,
`get_knowledge_bases` and `get_documents` return the empty list and
`get_setting` returns its `default` argument, for every state of the store
and every argument; being pure functions of the state, they leave the store
unchanged. -/
theorem reads_never_raise (db : DB) (cid mid kbId : Nat) (key : String)
    (default : Option String) :
    get_conversations db true = [] ∧
    get_messages db cid true = [] ∧
    get_sources db mid true = [] ∧
    get_knowledge_bases db true = [] ∧
    get_documents db kbId true = [] ∧
    get_setting db key default true = default :=
  ⟨rfl, rfl, rfl, rfl, rfl, rfl⟩

/-- C10: when `register_knowledge_base` is called with SQL NULL as `name`
(Python `None`), the INSERT raises an IntegrityError (NOT NULL violation),
the handler's lookup `WHERE name = NULL` finds no row, and the function
returns Python `None` instead of an id and instead of raising. -/
theorem register_kb_null_name_returns_none (db : DB)
    (em cs d : String) (now : Nat) :
    register_knowledge_base db none em cs d now none = (db, .ok none) := rfl

/-- C8: `get_sources` returns exactly the source rows attached to the given
message, as records (source, page, score, kb_name), sorted by score in
descending order; in particular three stored sources with scores
0.9, 0.3, 0.6 come back in the order 0.9, 0.6, 0.3. -/
theorem get_sources_sorted_desc (db : DB) (mid : Nat) :
    List.Perm (get_sources db mid false)
      ((db.sources.filter (fun s => s.message_id == mid)).map
        (fun s => ⟨s.source_document, s.page_number, s.score, s.kb_name⟩)) ∧
    List.Sorted srcDesc (get_sources db mid false) ∧
    get_sources dbThreeScores 1 false =
      [⟨"a", 1, 9/10, "kb"⟩, ⟨"c", 3, 6/10, "kb"⟩, ⟨"b", 2, 3/10, "kb"⟩] := by
  refine ⟨?_, ?_, ?_⟩
  · simp only [get_sources, if_neg Bool.false_ne_true]
    exact List.perm_insertionSort srcDesc _
  · simp only [get_sources, if_neg Bool.false_ne_true]
    exact List.sorted_insertionSort srcDesc _
  · norm_num [get_sources, dbThreeScores, List.insertionSort,
      List.orderedInsert, srcDesc]

/-- C5: `add_sources` with an empty list is a no-op that opens no connection;
otherwise, when the batch succeeds, the stored rows carry the per-entry
defaults — score coerced to float or 0.5 on absence/failed coercion, page
0, kb_name "Unknown KB", source "" — and a connection was opened. -/
theorem add_sources_defaults (db : DB) (mid : Nat)
    (entries : List PySourceEntry) (fault : Option Nat) :
    add_sources db mid [] fault = (db, false, .ok ()) ∧
    ((add_sources db mid entries fault).2.2 = .ok () →
      (add_sources db mid entries fault).1.sources =
        db.sources ++ storedRows mid db.nextSrcId entries) ∧
    (entries ≠ [] → (add_sources db mid entries fault).2.1 = true) := by
  refine ⟨rfl, ?_, ?_⟩
  · intro hok
    by_cases hne : entries.isEmpty
    · rw [List.isEmpty_iff] at hne
      subst hne
      simp [add_sources, storedRows]
    · simp only [add_sources, if_neg hne] at hok ⊢
      cases hloop : addSourcesLoop db mid entries 0 fault with
      | ok db1 =>
        simp only [hloop]
        exact (addSourcesLoop_ok mid entries db db1 0 fault hloop).1
      | error e =>
        rw [hloop] at hok
        cases hok
  · intro hne
    have hne' : entries.isEmpty = false := by
      cases entries with
      | nil => exact absurd rfl hne
      | cons a l => rfl
    simp only [add_sources, hne', Bool.false_eq_true, if_false]
    cases addSourcesLoop db mid entries 0 fault <;> rfl

/-- C5 witness: on the concrete store `dbMsg`, an empty batch is a no-op
without a connection, and `add_sources 1 [{}]` (one empty dict) succeeds and
stores exactly the defaulted row ("", 0, 0.5, "Unknown KB"). -/
theorem add_sources_defaults_witness :
    add_sources dbMsg 1 [] none = (dbMsg, false, .ok ()) ∧
    (add_sources dbMsg 1 [⟨none, none, none, none⟩] none).1.sources =
      [⟨1, 1, "", 0, 1/2, "Unknown KB"⟩] ∧
    (add_sources dbMsg 1 [⟨none, none, none, none⟩] none).2.1 = true := by
  obtain ⟨h1, h2, h3⟩ :=
    add_sources_defaults dbMsg 1 [⟨none, none, none, none⟩] none
  refine ⟨h1, ?_, h3 (by simp)⟩
  rw [h2 rfl]
  rfl

/-- C3: `add_message` is atomic: on success it returns the fresh message id
with both writes applied (the message row inserted and the parent
conversation's last_updated set to the current time); on any error — raised
by either statement or by the commit — the transaction is rolled back, the
state is exactly the pre-call state, and the error propagates to the
caller. -/
theorem add_message_atomic (db : DB) (cid : Nat) (role content : String)
    (now : Nat) (fault : Option Nat) :
    (∀ e, (add_message db cid role content now fault).2 = .error e →
      (add_message db cid role content now fault).1 = db) ∧
    (∀ mid, (add_message db cid role content now fault).2 = .ok mid →
      mid = db.nextMsgId ∧
      (add_message db cid role content now fault).1.messages =
        db.messages ++ [⟨mid, cid, role, content, now⟩] ∧
      (add_message db cid role content now fault).1.conversations =
        db.conversations.map
          (fun c =>
            if c.id == cid then { c with last_updated := now } else c)) := by
  unfold add_message
  split
  · exact ⟨fun e _ => rfl, fun mid h => by simp at h⟩
  · split
    · exact ⟨fun e _ => rfl, fun mid h => by simp at h⟩
    · split
      · exact ⟨fun e _ => rfl, fun mid h => by simp at h⟩
      · split
        · exact ⟨fun e _ => rfl, fun mid h => by simp at h⟩
        · refine ⟨fun e h => by simp at h, fun mid h => ?_⟩
          obtain rfl : db.nextMsgId = mid := by simpa using h
          exact ⟨rfl, rfl, rfl⟩

/-- C3 witness: adding a message to conversation 1 of the concrete store
`dbConv` succeeds with id 1, appends the row and bumps last_updated. -/
theorem add_message_atomic_witness :
    (1 : Nat) = dbConv.nextMsgId ∧
    (add_message dbConv 1 "user" "hi" 7 none).1.messages =
      dbConv.messages ++ [⟨1, 1, "user", "hi", 7⟩] ∧
    (add_message dbConv 1 "user" "hi" 7 none).1.conversations =
      dbConv.conversations.map
        (fun c => if c.id == 1 then { c with last_updated := 7 } else c) :=
  (add_message_atomic dbConv 1 "user" "hi" 7 none).2 1 rfl

/-- C4: `delete_conversation` is transactional (on error the state is
untouched) and, on success, cascade delete leaves no orphans: no
conversation with the deleted id, no message of that conversation, and no
source attached to any of its former messages remains. -/
theorem delete_conversation_cascade (db : DB) (cid : Nat)
    (fault : Option Nat) :
    (∀ e, (delete_conversation db cid fault).2 = .error e →
      (delete_conversation db cid fault).1 = db) ∧
    ((delete_conversation db cid fault).2 = .ok () →
      (∀ c ∈ (delete_conversation db cid fault).1.conversations,
        c.id ≠ cid) ∧
      (∀ m ∈ (delete_conversation db cid fault).1.messages,
        m.conversation_id ≠ cid) ∧
      (∀ s ∈ (delete_conversation db cid fault).1.sources,
        ∀ m ∈ db.messages, m.conversation_id = cid → s.message_id ≠ m.id)) := by
  unfold delete_conversation
  split
  · exact ⟨fun e _ => rfl, fun h => by simp at h⟩
  · split
    · exact ⟨fun e _ => rfl, fun h => by simp at h⟩
    · refine ⟨fun e h => by simp at h, fun _ => ⟨?_, ?_, ?_⟩⟩
      · intro c hc
        have := (List.mem_filter.mp hc).2
        simpa using this
      · intro m hm
        have := (List.mem_filter.mp hm).2
        simpa using this
      · intro s hs m hm hmc heq
        have hnot := (List.mem_filter.mp hs).2
        have hmem : s.message_id ∈
            (db.messages.filter (fun m => m.conversation_id == cid)).map
              (fun m => m.id) := by
          refine List.mem_map.mpr ⟨m, List.mem_filter.mpr ⟨hm, ?_⟩, heq.symm⟩
          simp [hmc]
        simp [hmem] at hnot

/-- C4 witness: deleting conversation 1 from the concrete store `dbMsg`
succeeds and leaves no conversation 1, no message of conversation 1 and no
source of its former messages. -/
theorem delete_conversation_cascade_witness :
    (∀ c ∈ (delete_conversation dbMsg 1 none).1.conversations, c.id ≠ 1) ∧
    (∀ m ∈ (delete_conversation dbMsg 1 none).1.messages,
      m.conversation_id ≠ 1) ∧
    (∀ s ∈ (delete_conversation dbMsg 1 none).1.sources,
      ∀ m ∈ dbMsg.messages, m.conversation_id = 1 → s.message_id ≠ m.id) :=
  (delete_conversation_cascade dbMsg 1 none).2 rfl

/-- C1: `register_knowledge_base` is idempotent by name.  Assuming the
UNIQUE(name) schema invariant (at most one row named `n`), two consecutive
registrations under the same name both return `.ok` with the same id, the
store ends up with exactly one row named `n`, and whenever a row named `n`
already exists the call returns that row's id, rolling back the attempted
insert and leaving the store unchanged. -/
theorem register_kb_idempotent (db : DB) (n em cs d em2 cs2 d2 : String)
    (now now2 : Nat)
    (huniq : db.knowledge_bases.countP (fun kb => kb.name == n) ≤ 1) :
    ∃ i : Nat,
      (register_knowledge_base db (some n) em cs d now none).2 =
        .ok (some i) ∧
      (register_knowledge_base
        (register_knowledge_base db (some n) em cs d now none).1
        (some n) em2 cs2 d2 now2 none).2 = .ok (some i) ∧
      ((register_knowledge_base
        (register_knowledge_base db (some n) em cs d now none).1
        (some n) em2 cs2 d2 now2 none).1).knowledge_bases.countP
          (fun kb => kb.name == n) = 1 ∧
      (∀ kb, db.knowledge_bases.find? (fun x => x.name == n) = some kb →
        i = kb.id ∧
        (register_knowledge_base db (some n) em cs d now none).1 = db) := by
  by_cases hany : db.knowledge_bases.any (fun kb => kb.name == n)
  · cases hfind : db.knowledge_bases.find? (fun kb => kb.name == n) with
    | none =>
      rw [List.find?_eq_none] at hfind
      obtain ⟨x, hx, hpx⟩ := List.any_eq_true.mp hany
      exact absurd hpx (hfind x hx)
    | some kb0 =>
      have hpos : 0 < db.knowledge_bases.countP (fun kb => kb.name == n) :=
        List.countP_pos_iff.mpr (by simpa using List.any_eq_true.mp hany)
      refine ⟨kb0.id, ?_, ?_, ?_, ?_⟩ <;>
        simp only [register_knowledge_base, hany, hfind, if_true,
          reduceCtorEq, reduceIte]
      · omega
      · intro kb hkb
        cases hkb
        exact ⟨rfl, trivial⟩
  · have hall : ∀ kb ∈ db.knowledge_bases, ¬(kb.name == n) = true :=
      fun kb hkb hp =>
        hany (List.any_eq_true.mpr ⟨kb, hkb, hp⟩)
    have hzero : db.knowledge_bases.countP (fun kb => kb.name == n) = 0 :=
      List.countP_eq_zero.mpr hall
    have hfind0 : db.knowledge_bases.find? (fun kb => kb.name == n) = none :=
      List.find?_eq_none.mpr hall
    have hanyB : db.knowledge_bases.any (fun kb => kb.name == n) = false :=
      Bool.not_eq_true _ ▸ eq_false_of_ne_true (fun h => hany h)
    refine ⟨db.nextKbId, ?_, ?_, ?_, ?_⟩
    · simp [register_knowledge_base, hanyB]
    · simp [register_knowledge_base, hanyB, hfind0, List.find?_append]
    · simp [register_knowledge_base, hanyB, hfind0, List.find?_append,
        hzero]
    · intro kb hkb
      rw [hfind0] at hkb
      cases hkb

/-- C1 witness: registering "kb1" twice on the empty store returns id 1 both
times and leaves exactly one row named "kb1". -/
theorem register_kb_idempotent_witness :
    ∃ i : Nat,
      (register_knowledge_base emptyDB (some "kb1") "m" "s" "" 0 none).2 =
        .ok (some i) ∧
      (register_knowledge_base
        (register_knowledge_base emptyDB (some "kb1") "m" "s" "" 0 none).1
        (some "kb1") "m2" "s2" "d2" 1 none).2 = .ok (some i) ∧
      ((register_knowledge_base
        (register_knowledge_base emptyDB (some "kb1") "m" "s" "" 0 none).1
        (some "kb1") "m2" "s2" "d2" 1 none).1).knowledge_bases.countP
          (fun kb => kb.name == "kb1") = 1 ∧
      (∀ kb, emptyDB.knowledge_bases.find? (fun x => x.name == "kb1") =
          some kb →
        i = kb.id ∧
        (register_knowledge_base emptyDB (some "kb1") "m" "s" "" 0 none).1 =
          emptyDB) :=
  register_kb_idempotent emptyDB "kb1" "m" "s" "" "m2" "s2" "d2" 0 1
    (by decide)

/-- Successful `set_setting` either rewrites the value of every row whose
key matches (ON CONFLICT DO UPDATE) or appends a fresh row (plain INSERT). -/
theorem set_setting_settings (db : DB) (k v : String) :
    (set_setting db k v none).1.settings =
      if db.settings.any (fun r => r.key == k) then
        db.settings.map
          (fun r => if r.key == k then { r with value := v } else r)
      else db.settings ++ [⟨db.nextSettingId, k, v⟩] := by
  by_cases hany : db.settings.any (fun r => r.key == k) = true
  · simp [set_setting, hany]
  · simp [set_setting, hany]

/-- The update function of the ON CONFLICT branch leaves every key
unchanged, so the key predicate is invariant under it. -/
theorem key_pred_comp (k v : String) :
    ((fun r : SettingRow => r.key == k) ∘
      (fun r => if r.key == k then { r with value := v } else r)) =
      (fun r : SettingRow => r.key == k) := by
  funext r
  simp only [Function.comp_apply]
  by_cases hr : (r.key == k) = true
  · rw [if_pos hr]
  · rw [if_neg hr]

/-- After a successful `set_setting k v`, `get_setting k` finds `v`. -/
theorem get_after_set_setting (db : DB) (k v : String) (d : Option String) :
    get_setting (set_setting db k v none).1 k d false = some v := by
  obtain ⟨r, hr, hrv⟩ : ∃ r, (set_setting db k v none).1.settings.find?
      (fun r => r.key == k) = some r ∧ r.value = v := by
    rw [set_setting_settings]
    by_cases hany : db.settings.any (fun r => r.key == k) = true
    · rw [if_pos hany, List.find?_map, key_pred_comp]
      cases hfind : db.settings.find? (fun r => r.key == k) with
      | none =>
        rw [List.find?_eq_none] at hfind
        obtain ⟨x, hx, hpx⟩ := List.any_eq_true.mp hany
        exact absurd hpx (hfind x hx)
      | some r0 =>
        have hp0 := List.find?_some hfind
        have hp : (r0.key == k) = true := hp0
        exact ⟨{ r0 with value := v }, congrArg some (if_pos hp), rfl⟩
    · have h1 : db.settings.find? (fun r => r.key == k) = none :=
        List.find?_eq_none.mpr
          (fun a ha hpa => hany (List.any_eq_true.mpr ⟨a, ha, hpa⟩))
      rw [if_neg hany, List.find?_append, h1]
      exact ⟨⟨db.nextSettingId, k, v⟩, by simp, rfl⟩
  simp [get_setting, hr, hrv]

/-- After a successful `set_setting k v` on a store satisfying the UNIQUE key
invariant, exactly one settings row has key `k`. -/
theorem countP_after_set_setting (db : DB) (k v : String)
    (h : db.settings.countP (fun r => r.key == k) ≤ 1) :
    (set_setting db k v none).1.settings.countP
      (fun r => r.key == k) = 1 := by
  rw [set_setting_settings]
  by_cases hany : db.settings.any (fun r => r.key == k) = true
  · rw [if_pos hany, List.countP_map, key_pred_comp]
    have hpos : 0 < db.settings.countP (fun r => r.key == k) :=
      List.countP_pos_iff.mpr (by simpa using List.any_eq_true.mp hany)
    omega
  · have hzero : db.settings.countP (fun r => r.key == k) = 0 :=
      List.countP_eq_zero.mpr
        (fun a ha hpa => hany (List.any_eq_true.mpr ⟨a, ha, hpa⟩))
    rw [if_neg hany, List.countP_append, hzero]
    simp

/-- C7: `set_setting` is an upsert as a single atomic statement: it returns
normally, it inserts a fresh row when the key is absent and overwrites the
stored value when the key is present; after `set_setting k v1` then
`set_setting k v2`, `get_setting k` returns `v2` and (under the UNIQUE key
schema invariant) exactly one settings row has key `k`. -/
theorem set_setting_upsert (db : DB) (k v1 v2 : String) (d : Option String)
    (h : db.settings.countP (fun r => r.key == k) ≤ 1) :
    (set_setting db k v1 none).2 = .ok () ∧
    (set_setting (set_setting db k v1 none).1 k v2 none).2 = .ok () ∧
    get_setting (set_setting (set_setting db k v1 none).1 k v2 none).1 k d
      false = some v2 ∧
    (set_setting (set_setting db k v1 none).1 k v2 none).1.settings.countP
      (fun r => r.key == k) = 1 ∧
    (db.settings.any (fun r => r.key == k) = false →
      (set_setting db k v1 none).1.settings =
        db.settings ++ [⟨db.nextSettingId, k, v1⟩]) ∧
    (db.settings.any (fun r => r.key == k) = true →
      (set_setting db k v1 none).1.settings =
        db.settings.map
          (fun r => if r.key == k then { r with value := v1 } else r)) := by
  have h1 : (set_setting db k v1 none).1.settings.countP
      (fun r => r.key == k) = 1 := countP_after_set_setting db k v1 h
  refine ⟨rfl, rfl, get_after_set_setting _ k v2 d,
    countP_after_set_setting _ k v2 (le_of_eq h1), ?_, ?_⟩
  · intro hany
    rw [set_setting_settings, if_neg (by simp [hany])]
  · intro hany
    rw [set_setting_settings, if_pos hany]

/-- C7 witness: on the empty store, setting "k" to "v1" then to "v2" makes
`get_setting "k"` return "v2" with exactly one row keyed "k". -/
theorem set_setting_upsert_witness :
    (set_setting emptyDB "k" "v1" none).2 = .ok () ∧
    (set_setting (set_setting emptyDB "k" "v1" none).1 "k" "v2" none).2 =
      .ok () ∧
    get_setting (set_setting (set_setting emptyDB "k" "v1" none).1 "k" "v2"
      none).1 "k" none false = some "v2" ∧
    (set_setting (set_setting emptyDB "k" "v1" none).1 "k" "v2"
      none).1.settings.countP (fun r => r.key == "k") = 1 ∧
    (emptyDB.settings.any (fun r => r.key == "k") = false →
      (set_setting emptyDB "k" "v1" none).1.settings =
        emptyDB.settings ++ [⟨emptyDB.nextSettingId, "k", "v1"⟩]) ∧
    (emptyDB.settings.any (fun r => r.key == "k") = true →
      (set_setting emptyDB "k" "v1" none).1.settings =
        emptyDB.settings.map
          (fun r => if r.key == "k" then { r with value := "v1" } else r)) :=
  set_setting_upsert emptyDB "k" "v1" "v2" none (by decide)

/-- A store where a knowledge base named "" is registered and the
"active_knowledge_base" setting is set to "". -/
def dbEmptyName : DB :=
  (set_active_knowledge_base
    (register_knowledge_base emptyDB (some "") "m" "c" "" 0 none).1
    "" none).1

/-- C9 counterexample: with a knowledge base named "" registered and the
active-KB setting holding "", the setting is set and its value names an
existing knowledge base, yet `get_active_knowledge_base` returns null —
`if not active_kb_name` treats the empty string like an unset setting
(Python falsiness), refuting the claimed "exactly when" characterisation. -/
theorem get_active_kb_empty_name_counterexample :
    get_setting dbEmptyName "active_knowledge_base" none false = some "" ∧
    dbEmptyName.knowledge_bases.find? (fun kb => kb.name == "") =
      some ⟨1, "", "", 0, 0, "m", "c"⟩ ∧
    get_active_knowledge_base dbEmptyName false false = none := by
  refine ⟨rfl, rfl, rfl⟩

/-- C9 (amended): `get_active_knowledge_base` returns null exactly when the
"active_knowledge_base" setting is unset, is set to the empty string (Python
falsiness of `if not active_kb_name`), or names no existing knowledge base;
for a set, non-empty name that resolves, it returns that knowledge base's
record.  `set_active_knowledge_base` writes the setting unconditionally, so
setting "missing" and resolving returns null when no knowledge base of that
name exists. -/
theorem get_active_kb_resolution (db : DB) :
    (get_active_knowledge_base db false false = none ↔
      (get_setting db "active_knowledge_base" none false = none ∨
       get_setting db "active_knowledge_base" none false = some "" ∨
       (∃ v, get_setting db "active_knowledge_base" none false = some v ∧
         db.knowledge_bases.find? (fun kb => kb.name == v) = none))) ∧
    (∀ v kb, get_setting db "active_knowledge_base" none false = some v →
      v ≠ "" →
      db.knowledge_bases.find? (fun kb => kb.name == v) = some kb →
      get_active_knowledge_base db false false = some kb) ∧
    (∀ name : String,
      (set_active_knowledge_base db name none).2 = .ok () ∧
      get_setting (set_active_knowledge_base db name none).1
        "active_knowledge_base" none false = some name) ∧
    ((set_active_knowledge_base db "missing" none).1.knowledge_bases.find?
        (fun kb => kb.name == "missing") = none →
      get_active_knowledge_base
        (set_active_knowledge_base db "missing" none).1 false false =
        none) := by
  refine ⟨?_, ?_, ?_, ?_⟩
  · cases hset : get_setting db "active_knowledge_base" none false with
    | none => simp [get_active_knowledge_base, hset]
    | some v =>
      by_cases hv : v = ""
      · subst hv
        simp [get_active_knowledge_base, hset]
      · simp only [get_active_knowledge_base, hset, if_neg hv,
          Bool.false_eq_true, if_false]
        constructor
        · intro h
          exact Or.inr (Or.inr ⟨v, rfl, h⟩)
        · intro h
          rcases h with h | h | ⟨v', hv', hf⟩
          · cases h
          · cases h
            exact absurd rfl hv
          · cases hv'
            exact hf
  · intro v kb hset hv hfind
    simp [get_active_knowledge_base, hset, hv, hfind]
  · intro name
    exact ⟨rfl, get_after_set_setting db "active_knowledge_base" name none⟩
  · intro hfind
    have hset := get_after_set_setting db "active_knowledge_base"
      "missing" none
    simp only [set_active_knowledge_base] at hfind ⊢
    simp [get_active_knowledge_base, hset, hfind]

/-- C9 witness: on the empty store, setting the active knowledge base to
"missing" and resolving it returns null. -/
theorem get_active_kb_resolution_witness :
    get_active_knowledge_base
      (set_active_knowledge_base emptyDB "missing" none).1 false false =
      none :=
  (get_active_kb_resolution emptyDB).2.2.2 (by decide)

/-! Preservation of the `knowledge_bases` table by the operations that do
not touch it, used for the document-count invariant. -/

/-- Operation `create_conversation` leaves the knowledge_bases table unchanged. -/
theorem kbs_create_conversation (db : DB) (t : String) (n : Nat)
    (f : Option Nat) :
    ((create_conversation db t n f).1).knowledge_bases =
      db.knowledge_bases := by
  unfold create_conversation
  split
  · rfl
  · split
    · rfl
    · rfl

/-- Operation `add_message` leaves the knowledge_bases table unchanged. -/
theorem kbs_add_message (db : DB) (cid : Nat) (role content : String)
    (now : Nat) (f : Option Nat) :
    ((add_message db cid role content now f).1).knowledge_bases =
      db.knowledge_bases := by
  unfold add_message
  split
  · rfl
  · split
    · rfl
    · split
      · rfl
      · split
        · rfl
        · rfl

/-- Operation `add_sources` leaves the knowledge_bases table unchanged. -/
theorem kbs_add_sources (db : DB) (mid : Nat) (entries : List PySourceEntry)
    (f : Option Nat) :
    ((add_sources db mid entries f).1).knowledge_bases =
      db.knowledge_bases := by
  unfold add_sources
  split
  · rfl
  · cases hloop : addSourcesLoop db mid entries 0 f with
    | ok db1 =>
      simp only [hloop]
      exact (addSourcesLoop_ok mid entries db db1 0 f hloop).2.2.2.2.1
    | error e => simp only [hloop]

/-- Operation `update_conversation_title` leaves the knowledge_bases table
unchanged. -/
theorem kbs_update_title (db : DB) (cid : Nat) (t : String)
    (f : Option Nat) :
    ((update_conversation_title db cid t f).1).knowledge_bases =
      db.knowledge_bases := by
  unfold update_conversation_title
  split
  · rfl
  · split
    · rfl
    · rfl

/-- Operation `delete_conversation` leaves the knowledge_bases table unchanged. -/
theorem kbs_delete_conversation (db : DB) (cid : Nat) (f : Option Nat) :
    ((delete_conversation db cid f).1).knowledge_bases =
      db.knowledge_bases := by
  unfold delete_conversation
  split
  · rfl
  · split
    · rfl
    · rfl

/-- Operation `set_setting` leaves the knowledge_bases table unchanged. -/
theorem kbs_set_setting (db : DB) (k v : String) (f : Option Nat) :
    ((set_setting db k v f).1).knowledge_bases = db.knowledge_bases := by
  unfold set_setting
  split
  · rfl
  · split
    · split
      · rfl
      · rfl
    · split
      · rfl
      · rfl

/-- A row update that keeps ids fixed commutes with lookup by id. -/
theorem find?_id_map (l : List KnowledgeBase)
    (f : KnowledgeBase → KnowledgeBase) (hf : ∀ kb, (f kb).id = kb.id)
    (k : Nat) :
    (l.map f).find? (fun x => x.id == k) =
      (l.find? (fun x => x.id == k)).map f := by
  have hcomp : ((fun x : KnowledgeBase => x.id == k) ∘ f) =
      (fun x : KnowledgeBase => x.id == k) := by
    funext x
    simp only [Function.comp_apply, hf]
  rw [List.find?_map, hcomp]

/-- Adding zero documents to a knowledge-base row is the identity. -/
theorem kb_plus_if_false (kb : KnowledgeBase) (b : Bool) (hb : b = false) :
    ({ kb with document_count :=
      kb.document_count + (if b then 1 else 0) } : KnowledgeBase) = kb := by
  subst hb
  rfl

/-- Operation `register_knowledge_base` never changes an existing knowledge-base row:
every failure path returns the rolled-back state, the duplicate path returns
the state unchanged, and the success path only appends a new row. -/
theorem kbFind_register_kb (db : DB) (name : Option String)
    (em cs d : String) (now : Nat) (fault : Option Nat) (k : Nat)
    (kb : KnowledgeBase) (h : kbFind db k = some kb) :
    kbFind ((register_knowledge_base db name em cs d now fault).1) k =
      some kb := by
  unfold register_knowledge_base
  split
  · exact h
  · split
    · exact h
    · split
      · split
        · exact h
        · exact h
      · split
        · exact h
        · unfold kbFind at h ⊢
          simp only [List.find?_append, h, Option.or_some]

/-- Effect of `register_document` on the looked-up knowledge-base row: when
the call fails the state is rolled back and the row is unchanged; when it
succeeds, the row's document_count grows by one exactly when it is the
targeted row. -/
theorem kbFind_register_document (db : DB) (kbId : Nat) (fn dt : String)
    (pc cc : Int) (now : Nat) (fault : Option Nat) (k : Nat)
    (kb : KnowledgeBase) (h : kbFind db k = some kb) :
    (∀ e, (register_document db kbId fn dt pc cc now fault).2 = .error e →
      kbFind ((register_document db kbId fn dt pc cc now fault).1) k =
        some kb) ∧
    (∀ did, (register_document db kbId fn dt pc cc now fault).2 = .ok did →
      kbFind ((register_document db kbId fn dt pc cc now fault).1) k =
        some { kb with document_count := kb.document_count +
          (if kbId == k then 1 else 0) }) := by
  have h' : List.find? (fun x => x.id == k) db.knowledge_bases = some kb := h
  have hkb0 := List.find?_some h'
  have hid : kb.id = k := by simpa using hkb0
  unfold register_document
  split
  · exact ⟨fun e _ => h, fun did hdid => by simp at hdid⟩
  · split
    · exact ⟨fun e _ => h, fun did hdid => by simp at hdid⟩
    · split
      · exact ⟨fun e _ => h, fun did hdid => by simp at hdid⟩
      · split
        · exact ⟨fun e _ => h, fun did hdid => by simp at hdid⟩
        · refine ⟨fun e he => by simp at he, fun did hdid => ?_⟩
          unfold kbFind at h ⊢
          rw [find?_id_map _ _ (fun x => by split <;> rfl) k, h,
            Option.map_some']
          by_cases hk : (kbId == k) = true
          · have hkbid : (kb.id == kbId) = true := by
              have hkk : kbId = k := by simpa using hk
              simp [hid, hkk]
            rw [if_pos hk, if_pos hkbid]
          · have hkne : ¬kbId = k := fun hkk => hk (by simp [hkk])
            have hkbid : (kb.id == kbId) = false := by
              rw [hid]
              simp only [beq_eq_false_iff_ne, ne_eq]
              exact fun hkk => hkne hkk.symm
            rw [if_neg hk,
              if_neg (show ¬(kb.id == kbId) = true by
                rw [hkbid]; exact Bool.false_ne_true),
              show kb.document_count + 0 = kb.document_count from rfl]

/-- Rollback and insertion behaviour of `register_document` on the
documents table. -/
theorem docs_register_document (db : DB) (kbId : Nat) (fn dt : String)
    (pc cc : Int) (now : Nat) (fault : Option Nat) :
    (∀ e, (register_document db kbId fn dt pc cc now fault).2 = .error e →
      (register_document db kbId fn dt pc cc now fault).1 = db) ∧
    (∀ did, (register_document db kbId fn dt pc cc now fault).2 = .ok did →
      did = db.nextDocId ∧
      (register_document db kbId fn dt pc cc now fault).1.documents =
        db.documents ++ [⟨did, kbId, fn, dt, pc, cc, now⟩]) := by
  unfold register_document
  split
  · exact ⟨fun e _ => rfl, fun did hdid => by simp at hdid⟩
  · split
    · exact ⟨fun e _ => rfl, fun did hdid => by simp at hdid⟩
    · split
      · exact ⟨fun e _ => rfl, fun did hdid => by simp at hdid⟩
      · split
        · exact ⟨fun e _ => rfl, fun did hdid => by simp at hdid⟩
        · refine ⟨fun e he => by simp at he, fun did hdid => ?_⟩
          obtain rfl : db.nextDocId = did := by simpa using hdid
          exact ⟨rfl, rfl⟩

/-- How one operation changes the document_count of the knowledge-base row
with id `k`: it grows by one on a successful `register_document` against
`k` and stays put in every other case. -/
theorem step_kbFind (db : DB) (op : Op) (k : Nat) (kb : KnowledgeBase)
    (h : kbFind db k = some kb) :
    kbFind (step db op) k =
      some { kb with document_count :=
        kb.document_count + (if regDocSuccess db op k then 1 else 0) } := by
  cases op with
  | opCreateConversation t n f =>
    show kbFind (create_conversation db t n f).1 k = some kb
    unfold kbFind at h ⊢
    rw [kbs_create_conversation db t n f]
    exact h
  | opAddMessage cid role content n f =>
    show kbFind (add_message db cid role content n f).1 k = some kb
    unfold kbFind at h ⊢
    rw [kbs_add_message db cid role content n f]
    exact h
  | opAddSources mid entries f =>
    show kbFind (add_sources db mid entries f).1 k = some kb
    unfold kbFind at h ⊢
    rw [kbs_add_sources db mid entries f]
    exact h
  | opUpdateTitle cid t f =>
    show kbFind (update_conversation_title db cid t f).1 k = some kb
    unfold kbFind at h ⊢
    rw [kbs_update_title db cid t f]
    exact h
  | opDeleteConversation cid f =>
    show kbFind (delete_conversation db cid f).1 k = some kb
    unfold kbFind at h ⊢
    rw [kbs_delete_conversation db cid f]
    exact h
  | opRegisterKB name em cs descr n f =>
    show kbFind (register_knowledge_base db name em cs descr n f).1 k =
      some kb
    exact kbFind_register_kb db name em cs descr n f k kb h
  | opSetSetting key value f =>
    show kbFind (set_setting db key value f).1 k = some kb
    unfold kbFind at h ⊢
    rw [kbs_set_setting db key value f]
    exact h
  | opSetActiveKB name f =>
    show kbFind (set_setting db "active_knowledge_base" name f).1 k = some kb
    unfold kbFind at h ⊢
    rw [kbs_set_setting db "active_knowledge_base" name f]
    exact h
  | opRegisterDocument kbId fn dt pc cc n f =>
    obtain ⟨hErr, hOk⟩ := kbFind_register_document db kbId fn dt pc cc n f
      k kb h
    show kbFind (register_document db kbId fn dt pc cc n f).1 k =
      some { kb with document_count := kb.document_count +
        (if kbId == k && isOkE (register_document db kbId fn dt pc cc n f).2
          then 1 else 0) }
    cases hres : (register_document db kbId fn dt pc cc n f).2 with
    | error e =>
      rw [hErr e hres]
      simp [isOkE]
    | ok did =>
      rw [hOk did hres]
      simp [isOkE]

/-- Document-count invariant along any trace: the counter of an existing
knowledge-base row grows by exactly the number of successful
`register_document` calls against it, and nothing else about the row
changes. -/
theorem runTrace_document_count (tr : List Op) :
    ∀ (db : DB) (k : Nat) (kb : KnowledgeBase), kbFind db k = some kb →
      kbFind (runTrace db tr) k =
        some { kb with document_count :=
          kb.document_count + docRegSuccesses db tr k } := by
  induction tr with
  | nil =>
    intro db k kb h
    exact h
  | cons op tl ih =>
    intro db k kb h
    have h2 := ih (step db op) k _ (step_kbFind db op k kb h)
    show kbFind (runTrace (step db op) tl) k = _
    rw [h2]
    show some _ = some { kb with document_count := kb.document_count +
      ((if regDocSuccess db op k then 1 else 0) +
        docRegSuccesses (step db op) tl k) }
    rw [← Nat.add_assoc]

/-- C2: for every knowledge base existing in any state, after any sequence
of store operations its document_count has grown by exactly the number of
successful `register_document` calls made against it (no other operation
changes it); moreover each successful `register_document` inserts the
document row and increments the counter by one in the same transaction,
while a failed one rolls the whole transaction back. -/
theorem register_document_count (tr : List Op) (db : DB) (k : Nat)
    (kb : KnowledgeBase) (h : kbFind db k = some kb) :
    kbFind (runTrace db tr) k =
      some { kb with document_count :=
        kb.document_count + docRegSuccesses db tr k } ∧
    (∀ fn dt pc cc now fault did,
      (register_document db k fn dt pc cc now fault).2 = .ok did →
      (register_document db k fn dt pc cc now fault).1.documents =
        db.documents ++ [⟨did, k, fn, dt, pc, cc, now⟩] ∧
      kbFind ((register_document db k fn dt pc cc now fault).1) k =
        some { kb with document_count := kb.document_count + 1 }) ∧
    (∀ fn dt pc cc now fault e,
      (register_document db k fn dt pc cc now fault).2 = .error e →
      (register_document db k fn dt pc cc now fault).1 = db) := by
  refine ⟨runTrace_document_count tr db k kb h, ?_, ?_⟩
  · intro fn dt pc cc now fault did hdid
    obtain ⟨hErr, hOk⟩ := kbFind_register_document db k fn dt pc cc now
      fault k kb h
    have hcount := hOk did hdid
    simp only [beq_self_eq_true, if_true] at hcount
    exact ⟨((docs_register_document db k fn dt pc cc now fault).2 did
      hdid).2, hcount⟩
  · intro fn dt pc cc now fault e he
    exact (docs_register_document db k fn dt pc cc now fault).1 e he

/-- Trace used by the C2 witness: two successful document registrations
against knowledge base 1. -/
def trEx : List Op :=
  [Op.opRegisterDocument 1 "f.pdf" "pdf" 3 5 2 none,
   Op.opRegisterDocument 1 "g.pdf" "pdf" 1 2 3 none]

/-- C2 witness: on the concrete store `dbKb` (one knowledge base, counter
0), running two successful `register_document` calls yields counter 2. -/
theorem register_document_count_witness :
    kbFind (runTrace dbKb trEx) 1 = some ⟨1, "kb1", "", 0, 2, "m", "s"⟩ := by
  have h := (register_document_count trEx dbKb 1 ⟨1, "kb1", "", 0, 0, "m",
    "s"⟩ (by decide)).1
  rw [h]
  rfl

end RagDB
